import Mathlib

set_option maxRecDepth 4096

/-!
Shallow embedding of `src/operator/operator.py`, the VPA recommender
operator.  External effects (Kubernetes API calls, git subprocesses, GitHub
REST calls) are modelled by an environment of oracle results; each embedded
function returns the list of effects it performed together with its result.
Timestamps (`datetime.now()`) and the human-readable message strings built
from exception texts are abstracted away: they never influence control flow.
`os.path.join` on relative components is modelled as concatenation with a
`/` separator.
-/

/-- Resource recommendation mapping (`resources: Dict[str, str]`).  The code
only ever consults the keys `cpu`, `memory` and `memoryLimit`; `none` models
an absent key. -/
structure Resources where
  cpu : Option String
  memory : Option String
  memoryLimit : Option String
deriving DecidableEq

/-- Python truthiness test `if not resources:` on the mapping. -/
def Resources.isEmpty (r : Resources) : Bool :=
  r.cpu.isNone && r.memory.isNone && r.memoryLimit.isNone

def emptyResources : Resources := ⟨none, none, none⟩

/-- Target resource descriptor (`spec.targetResource`); the code reads the
keys `kind`, `name`, `namespace` and `containerIndex` with `.get` defaults. -/
structure TargetResource where
  kind : Option String
  name : Option String
  nspace : Option String
  containerIndex : Option Nat
deriving DecidableEq

/-- One JSON-patch operation as emitted by `create_patch_file`. -/
structure PatchOp where
  op : String
  path : String
  value : String
deriving DecidableEq

/-- Common part of every patch path built by the f-strings in
`create_patch_file`: `/spec/template/spec/containers/{ci}/resources/`. -/
def containerBase (ci : Nat) : String :=
  "/spec/template/spec/containers/" ++ toString ci ++ "/resources/"

/-- Embedding of `create_patch_file` (operator.py:103-151): computes the
patch file path `<repo>/<gitPath>/patches/<name>.<kind>.yaml` and the list
of patch operations.  Returns the pair (path, operations); the directory
creation and YAML serialisation are I/O details carried by the caller. -/
def create_patch_file (repo_dir git_path : String) (target : TargetResource)
    (resources : Resources) : String × List PatchOp :=
  let kind := (target.kind.getD "").toLower
  let name := (target.name.getD "").toLower
  let patch_file :=
    repo_dir ++ "/" ++ git_path ++ "/patches/" ++ name ++ "." ++ kind ++ ".yaml"
  let container_index := target.containerIndex.getD 0
  let cpuPatches : List PatchOp :=
    match resources.cpu with
    | some c => [⟨"add", containerBase container_index ++ "requests/cpu", c⟩]
    | none => []
  let memPatches : List PatchOp :=
    match resources.memory with
    | some m =>
        [⟨"add", containerBase container_index ++ "requests/memory", m⟩,
         ⟨"add", containerBase container_index ++ "limits/memory",
           resources.memoryLimit.getD m⟩]
    | none => []
  (patch_file, cpuPatches ++ memPatches)

/-- Recommendation content of a VPA object's
`status.recommendation.containerRecommendations[i].target`. -/
structure ContainerTarget where
  cpu : Option String
  memory : Option String
deriving DecidableEq

/-- One element of `containerRecommendations`; `target` may be absent. -/
structure ContainerRecommendation where
  target : Option ContainerTarget
deriving DecidableEq

/-- Outcome of the `get_namespaced_custom_object` call backing
`get_vpa_recommendation`: the VPA object (its container recommendations),
a 404, or any other `ApiException`. -/
inductive VpaBackend where
  | ok (containerRecommendations : List ContainerRecommendation)
  | notFound
  | apiError
deriving DecidableEq

/-- Result of `get_vpa_recommendation`: a returned mapping, or a raised
`kopf.TemporaryError` carrying its `delay` argument. -/
inductive FetchResult where
  | success (resources : Resources)
  | retryableError (delay : Nat)
deriving DecidableEq

/-- Embedding of `get_vpa_recommendation` (operator.py:348-387): empty
mapping when the recommendation list is empty or the VPA is absent (404),
the first container's target dimensions otherwise, and a retryable error
with delay 300 for any other backend failure. -/
def get_vpa_recommendation (backend : VpaBackend) : FetchResult :=
  match backend with
  | .ok recs =>
    match recs with
    | [] => .success emptyResources
    | c :: _ =>
      match c.target with
      | none => .success emptyResources
      | some t => .success ⟨t.cpu, t.memory, none⟩
  | .notFound => .success emptyResources
  | .apiError => .retryableError 300

/-- Outcome of one Kubernetes API call as seen by `update_status`. -/
inductive ApiResult where
  | ok
  | notFound
  | otherError
deriving DecidableEq

/-- Embedding of `update_status` (operator.py:552-589).  The first argument
is the outcome of the existence check, the second the outcome of the status
patch.  Returns (raised, wrote): whether an exception escaped the function,
and whether a status write succeeded.  In the code every exception is caught
(a 404 on the existence check returns early; a re-raised non-404 and any
patch failure are caught and logged by the outer handlers), so `raised` is
`false` on every path and `wrote` is `true` only when both calls succeed. -/
def update_status (existsCheck : ApiResult) (patchResult : ApiResult) :
    Bool × Bool :=
  match existsCheck with
  | .notFound => (false, false)
  | .otherError => (false, false)
  | .ok =>
    match patchResult with
    | .ok => (false, true)
    | .notFound => (false, false)
    | .otherError => (false, false)

/-- Metadata of an open pull request as extracted from the GitHub API by
`check_pull_request_exists` / `create_pull_request`. -/
structure PrData where
  number : Nat
  url : String
  created_at : String
deriving DecidableEq

/-- The `pullRequest` entry of a written status (`pr_status` dict). -/
structure PrStatus where
  url : String
  number : Nat
  created_at : String
  commits : Nat
deriving DecidableEq

/-- A status document as passed to `update_status` by the handler.  The
`conditions` list always holds exactly one condition, modelled by the three
`cond` fields; `statusField` is the optional top-level `status` key; message
texts and timestamps are abstracted away. -/
structure StatusData where
  lastRecommendation : Resources
  statusField : Option String
  lastPatch : Option (String × String)
  pullRequest : Option PrStatus
  condType : String
  condStatus : String
  condReason : String
deriving DecidableEq

/-- One observable external action performed during a reconciliation
cycle, in program order. -/
inductive Effect where
  | readSecret
  | fetchVpa
  | checkPR
  | clone
  | checkBranch
  | getCommitCount
  | checkoutBranch
  | writePatch (path : String)
  | gitAdd
  | gitCommit
  | gitPush
  | createPR
  | updateStatus (status : StatusData)
deriving DecidableEq

def Effect.isCreatePR : Effect → Bool
  | .createPR => true
  | _ => false

def Effect.isGitCommit : Effect → Bool
  | .gitCommit => true
  | _ => false

def Effect.isGitPush : Effect → Bool
  | .gitPush => true
  | _ => false

/-- Status documents written during a trace, in order. -/
def statusWrites (t : List Effect) : List StatusData :=
  t.filterMap fun e =>
    match e with
    | .updateStatus s => some s
    | _ => none

/-- Embedding of `git_commit_and_push` (operator.py:153-211).  `addOk`
covers the `git add` / `git config` / `git status` commands, `clean` is
whether `git status --porcelain` produced no output, `commitOk` and
`pushOk` the commit and push commands.  A failing git command raises
`kopf.PermanentError`, modelled as `.error ()`.  On a clean tree the
function returns before the commit and push commands are ever run. -/
def git_commit_and_push (addOk clean commitOk pushOk : Bool) :
    List Effect × Except Unit Unit :=
  if addOk = false then ([.gitAdd], .error ())
  else if clean then ([.gitAdd], .ok ())
  else if commitOk = false then ([.gitAdd, .gitCommit], .error ())
  else if pushOk = false then ([.gitAdd, .gitCommit, .gitPush], .error ())
  else ([.gitAdd, .gitCommit, .gitPush], .ok ())

/-- Outcome of reading the git token secret (`read_namespaced_secret`): the
decoded, stripped token, or an `ApiException` that makes the handler raise
`kopf.PermanentError` (operator.py:411-419). -/
inductive SecretResult where
  | ok (token : String)
  | apiError
deriving DecidableEq

/-- The spec fields of a VPARecommender custom resource read by the handler
(operator.py:398-404). -/
structure CrSpec where
  vpaName : String
  vpaNamespace : String
  gitRepo : String
  gitPath : String
  targetResource : TargetResource
  secretRef : String
  baseBranch : String
deriving DecidableEq

/-- Oracle results for the external operations of one reconciliation cycle.
`prFound` is the result of `check_pull_request_exists` (which never raises:
lookup failures collapse to `none`); `repoDir` the `tempfile.mkdtemp`
directory; the `Ok` Booleans tell whether each git subprocess succeeds;
`statusClean` whether `git status --porcelain` reports no changes;
`commitCountBefore` / `commitCountAfter` the results of the two best-effort
`get_commit_count` calls (which never raise); `createPrResult` is the pull
request returned by `create_pull_request`, `none` modelling the raised
`kopf.PermanentError`. -/
structure Env where
  secret : SecretResult
  vpa : VpaBackend
  prFound : Option PrData
  repoDir : String
  cloneOk : Bool
  branchExists : Bool
  commitCountBefore : Nat
  checkoutOk : Bool
  addOk : Bool
  statusClean : Bool
  commitOk : Bool
  pushOk : Bool
  commitCountAfter : Nat
  createPrResult : Option PrData
deriving DecidableEq

/-- The status document built at operator.py:425-435 when the fetched
recommendation is empty (message text abstracted). -/
def noRecommendationStatus : StatusData :=
  { lastRecommendation := emptyResources
    statusField := some "NoRecommendation"
    lastPatch := none
    pullRequest := none
    condType := "Recommended"
    condStatus := "False"
    condReason := "NoRecommendations" }

/-- The status document built in the `except` handler at
operator.py:540-549 (exception text abstracted). -/
def processingErrorStatus (resources : Resources) : StatusData :=
  { lastRecommendation := resources
    statusField := none
    lastPatch := none
    pullRequest := none
    condType := "Recommended"
    condStatus := "False"
    condReason := "ProcessingError" }

/-- Embedding of `os.path.basename` for the slash-separated paths the code
builds. -/
def basename (s : String) : String := (s.splitOn "/").getLastD ""

/-- The status document built on the success path at operator.py:517-532. -/
def successStatus (resources : Resources) (patch_file : String)
    (target : TargetResource) (pr : PrStatus) : StatusData :=
  { lastRecommendation := resources
    statusField := none
    lastPatch := some (basename patch_file,
      target.kind.getD "" ++ "/" ++ target.name.getD "")
    pullRequest := some pr
    condType := "Recommended"
    condStatus := "True"
    condReason := "PatchCreated" }

/-- Embedding of the `try:` block of `recommend_resources`
(operator.py:443-532) up to, but not including, the final `update_status`
call.  `prLookup` is the pull-request lookup result obtained before the
block; `.error ()` models an exception escaping to the `except` handler at
operator.py:537.  On success it returns the status document the handler
will write. -/
def tryBody (spec : CrSpec) (env : Env) (resources : Resources)
    (prLookup : Option PrData) : List Effect × Except Unit StatusData :=
  if env.cloneOk = false then ([.clone], .error ())
  else
    let t0 : List Effect := [.clone, .checkBranch]
    let t1 := if env.branchExists then t0 ++ [.getCommitCount] else t0
    if env.checkoutOk = false then (t1 ++ [.checkoutBranch], .error ())
    else
      let t2 := t1 ++ [.checkoutBranch]
      let patch_file :=
        (create_patch_file env.repoDir spec.gitPath spec.targetResource resources).1
      let t3 := t2 ++ [.writePatch patch_file]
      let g := git_commit_and_push env.addOk env.statusClean env.commitOk env.pushOk
      let t4 := t3 ++ g.1
      match g.2 with
      | .error _ => (t4, .error ())
      | .ok _ =>
        let commit_count := env.commitCountAfter
        let t5 := t4 ++ [.getCommitCount]
        match prLookup with
        | none =>
          match env.createPrResult with
          | none => (t5 ++ [.createPR], .error ())
          | some pd =>
            (t5 ++ [.createPR],
             .ok (successStatus resources patch_file spec.targetResource
               ⟨pd.url, pd.number, pd.created_at, commit_count⟩))
        | some pd =>
          (t5, .ok (successStatus resources patch_file spec.targetResource
            ⟨pd.url, pd.number, pd.created_at, commit_count⟩))

/-- How control leaves the handler: a normal return, a raised
`kopf.PermanentError`, or a raised `kopf.TemporaryError` with its delay. -/
inductive Outcome where
  | done
  | permanentError
  | temporaryError (delay : Nat)
deriving DecidableEq

/-- Embedding of the handler `recommend_resources` (operator.py:392-550):
secret retrieval (a failure raises before anything else), recommendation
fetch (a non-404 backend failure raises `kopf.TemporaryError`), the empty
short-circuit that writes a `NoRecommendations` status, the pull-request
lookup, the `try:` body, and the final status write on both the success and
the `except` path. -/
def recommend_resources (spec : CrSpec) (env : Env) : List Effect × Outcome :=
  match env.secret with
  | .apiError => ([.readSecret], .permanentError)
  | .ok _token =>
    match get_vpa_recommendation env.vpa with
    | .retryableError d => ([.readSecret, .fetchVpa], .temporaryError d)
    | .success resources =>
      if resources.isEmpty then
        ([.readSecret, .fetchVpa, .updateStatus noRecommendationStatus], .done)
      else
        let pre : List Effect := [.readSecret, .fetchVpa, .checkPR]
        let body := tryBody spec env resources env.prFound
        match body.2 with
        | .ok sd => (pre ++ body.1 ++ [.updateStatus sd], .done)
        | .error _ =>
          (pre ++ body.1 ++ [.updateStatus (processingErrorStatus resources)],
           .done)

/-- Concrete fixtures used by witnesses and counterexamples. -/
def sampleTarget : TargetResource :=
  { kind := some "Deployment"
    name := some "api"
    nspace := some "prod"
    containerIndex := some 0 }

def sampleSpec : CrSpec :=
  { vpaName := "api-vpa"
    vpaNamespace := "prod"
    gitRepo := "https://github.com/acme/infra.git"
    gitPath := "infra"
    targetResource := sampleTarget
    secretRef := "git-secret"
    baseBranch := "main" }

def sampleResources : Resources :=
  { cpu := some "250m", memory := some "512Mi", memoryLimit := none }

def samplePr : PrData :=
  { number := 7, url := "https://github.com/acme/infra/pull/7", created_at := "t0" }

def okEnv : Env :=
  { secret := .ok "tok"
    vpa := .ok [⟨some ⟨some "250m", some "512Mi"⟩⟩]
    prFound := none
    repoDir := "/tmp/repo"
    cloneOk := true
    branchExists := false
    commitCountBefore := 0
    checkoutOk := true
    addOk := true
    statusClean := false
    commitOk := true
    pushOk := true
    commitCountAfter := 3
    createPrResult := some samplePr }

def badSecretEnv : Env := { okEnv with secret := .apiError }

def emptyVpaEnv : Env := { okEnv with vpa := .notFound }

def prFoundOkEnv : Env := { okEnv with prFound := some samplePr }

def prFoundCloneFailEnv : Env :=
  { okEnv with prFound := some samplePr, cloneOk := false }

theorem string_append_ne_of_ne (a : String) {b c : String} (h : b ≠ c) :
    a ++ b ≠ a ++ c := by
  intro he
  apply h
  have hd : a.data ++ b.data = a.data ++ c.data := by
    have h2 := congrArg String.data he
    simpa [String.data_append] using h2
  exact String.ext (List.append_cancel_left hd)

theorem containerBase_beq_false (ci : Nat) (s1 s2 : String)
    (h : (s1 == s2) = false) :
    (containerBase ci ++ s1 == containerBase ci ++ s2) = false :=
  beq_eq_false_iff_ne.mpr
    (string_append_ne_of_ne _ (beq_eq_false_iff_ne.mp h))

/-- All operations of a patch list that address the cpu dimension of
container ci, under either the requests or the limits path. -/
def cpuDimOps (ci : Nat) (ops : List PatchOp) : List PatchOp :=
  ops.filter fun p =>
    p.path == containerBase ci ++ "requests/cpu"
      || p.path == containerBase ci ++ "limits/cpu"

/-- All operations of a patch list that address the memory dimension of
container ci, under either the requests or the limits path. -/
def memoryDimOps (ci : Nat) (ops : List PatchOp) : List PatchOp :=
  ops.filter fun p =>
    p.path == containerBase ci ++ "requests/memory"
      || p.path == containerBase ci ++ "limits/memory"

/-- C2 counterexample: for the recommendation cpu 250m / memory 512Mi and
the target Deployment api in prod at container index 0, the patch produced
by create_patch_file has three add-operations, not exactly two as claimed:
the code additionally emits a limits/memory operation
(operator.py:138-144). -/
theorem create_patch_file_sample_has_three_ops :
    (create_patch_file "/tmp/repo" "infra" sampleTarget sampleResources).2.length = 3 ∧
    ((create_patch_file "/tmp/repo" "infra" sampleTarget sampleResources).2.length = 2) = False :=
  ⟨rfl, eq_false (by decide)⟩

/-- C2 amended: for the recommendation cpu 250m / memory 512Mi and the
target Deployment api in prod at container index 0, create_patch_file
produces exactly three add-operations — requests/cpu, requests/memory and
limits/memory (the limit defaulting to the memory request) — each with a
path under /spec/template/spec/containers/0/resources/. -/
theorem create_patch_file_sample_ops :
    (create_patch_file "/tmp/repo" "infra" sampleTarget sampleResources).2 =
      [⟨"add", "/spec/template/spec/containers/0/resources/requests/cpu", "250m"⟩,
       ⟨"add", "/spec/template/spec/containers/0/resources/requests/memory", "512Mi"⟩,
       ⟨"add", "/spec/template/spec/containers/0/resources/limits/memory", "512Mi"⟩] ∧
    ((create_patch_file "/tmp/repo" "infra" sampleTarget sampleResources).2.all
      fun p => p.op == "add"
        && "/spec/template/spec/containers/0/resources/".data.isPrefixOf p.path.data) = true := by
  constructor
  · rfl
  · decide

/-- C5: the patch artifact file path computed by create_patch_file depends
only on the repository root, the configured subpath and the target
descriptor; two invocations differing only in the recommendations compute
the same path. -/
theorem create_patch_file_path_deterministic (repo_dir git_path : String)
    (target : TargetResource) (r1 r2 : Resources) :
    (create_patch_file repo_dir git_path target r1).1 =
    (create_patch_file repo_dir git_path target r2).1 := rfl

/-- C6: when the working tree is clean (git status --porcelain reports no
changes), git_commit_and_push performs no commit and no push command,
whatever the outcomes of the other git commands are; the remote branch is
left untouched. -/
theorem git_commit_and_push_clean_skips_commit_and_push
    (addOk commitOk pushOk : Bool) :
    ((git_commit_and_push addOk true commitOk pushOk).1.all
      fun e => !(e.isGitCommit || e.isGitPush)) = true := by
  cases addOk <;> rfl

/-- C5 witness. -/
theorem create_patch_file_path_deterministic_holds :
    (create_patch_file "/tmp/repo" "infra" sampleTarget sampleResources).1 =
    (create_patch_file "/tmp/repo" "infra" sampleTarget emptyResources).1 :=
  create_patch_file_path_deterministic "/tmp/repo" "infra" sampleTarget
    sampleResources emptyResources

/-- C6 witness. -/
theorem git_commit_and_push_clean_skips_commit_and_push_holds :
    ((git_commit_and_push true true true true).1.all
      fun e => !(e.isGitCommit || e.isGitPush)) = true :=
  git_commit_and_push_clean_skips_commit_and_push true true true

/-- C7: get_vpa_recommendation maps a not-found backend answer to the empty
mapping rather than an error, and maps every other backend failure to a
retryable error carrying a backoff delay of 300 seconds. -/
theorem get_vpa_recommendation_error_contract :
    get_vpa_recommendation .notFound = .success emptyResources ∧
    get_vpa_recommendation .apiError = .retryableError 300 :=
  ⟨rfl, rfl⟩

/-- C8: when the owning resource is absent — the existence check reports
not-found, or the status patch reports not-found — update_status returns
normally (raised = false) and writes no status (wrote = false). -/
theorem update_status_absent_resource_no_raise_no_write (p : ApiResult) :
    update_status .notFound p = (false, false) ∧
    update_status .ok .notFound = (false, false) := by
  cases p <;> exact ⟨rfl, rfl⟩

/-- C8 witness. -/
theorem update_status_absent_resource_no_raise_no_write_holds :
    update_status .notFound .ok = (false, false) ∧
    update_status .ok .notFound = (false, false) :=
  update_status_absent_resource_no_raise_no_write .ok

/-- C9: for every recommendation mapping, create_patch_file emits exactly
one requests operation for the cpu dimension when cpu is present and no cpu
operation at all (neither requests nor limits) when it is absent, and emits
the requests operation (together with the derived limits operation) for the
memory dimension exactly when memory is present; an absent dimension
contributes no operation of any kind. -/
theorem create_patch_file_dimension_ops (repo_dir git_path : String)
    (target : TargetResource) (r : Resources) :
    cpuDimOps (target.containerIndex.getD 0)
        (create_patch_file repo_dir git_path target r).2 =
      (match r.cpu with
       | some c =>
         [⟨"add", containerBase (target.containerIndex.getD 0) ++ "requests/cpu", c⟩]
       | none => []) ∧
    memoryDimOps (target.containerIndex.getD 0)
        (create_patch_file repo_dir git_path target r).2 =
      (match r.memory with
       | some m =>
         [⟨"add", containerBase (target.containerIndex.getD 0) ++ "requests/memory", m⟩,
          ⟨"add", containerBase (target.containerIndex.getD 0) ++ "limits/memory",
            r.memoryLimit.getD m⟩]
       | none => []) := by
  obtain ⟨c, m, ml⟩ := r
  cases c <;> cases m <;>
    simp [create_patch_file, cpuDimOps, memoryDimOps,
      containerBase_beq_false (target.containerIndex.getD 0)
        "requests/memory" "requests/cpu" (by decide),
      containerBase_beq_false (target.containerIndex.getD 0)
        "limits/memory" "requests/cpu" (by decide),
      containerBase_beq_false (target.containerIndex.getD 0)
        "requests/memory" "limits/cpu" (by decide),
      containerBase_beq_false (target.containerIndex.getD 0)
        "limits/memory" "limits/cpu" (by decide),
      containerBase_beq_false (target.containerIndex.getD 0)
        "requests/cpu" "requests/memory" (by decide),
      containerBase_beq_false (target.containerIndex.getD 0)
        "requests/cpu" "limits/memory" (by decide),
      containerBase_beq_false (target.containerIndex.getD 0)
        "limits/memory" "requests/memory" (by decide),
      containerBase_beq_false (target.containerIndex.getD 0)
        "requests/memory" "limits/memory" (by decide)]

theorem get_vpa_success_of_ne_apiError (b : VpaBackend) (h : b ≠ .apiError) :
    ∃ r, get_vpa_recommendation b = .success r := by
  cases b with
  | apiError => exact absurd rfl h
  | notFound => exact ⟨_, rfl⟩
  | ok recs =>
    cases recs with
    | nil => exact ⟨_, rfl⟩
    | cons c cs =>
      obtain ⟨t⟩ := c
      cases t
      · exact ⟨_, rfl⟩
      · exact ⟨_, rfl⟩

/-- C1 counterexample: a cycle whose secret retrieval fails raises a
permanent error having performed no status write at all; the try block of
the handler only guards the steps from clone onward, while the secret read
at operator.py:411-419 raises before any update_status call. -/
theorem recommend_resources_secret_failure_skips_status_write :
    statusWrites (recommend_resources sampleSpec badSecretEnv).1 = [] ∧
    (recommend_resources sampleSpec badSecretEnv).2 = .permanentError :=
  ⟨rfl, rfl⟩

/-- C1 amended: once the secret retrieval and the recommendation fetch have
succeeded, every exit path of the cycle — success, no-op, or a failure at
clone, branch handling, patch write, commit, push or pull-request creation —
ends with a status write as its final effect and the handler returns
normally; a failure at secret retrieval or at the recommendation fetch,
however, raises without any status write. -/
theorem recommend_resources_status_write_after_fetch (spec : CrSpec)
    (env : Env) (token : String) (hs : env.secret = .ok token)
    (hv : env.vpa ≠ .apiError) :
    (∃ sd, (recommend_resources spec env).1.getLast? =
      some (.updateStatus sd)) ∧
    (recommend_resources spec env).2 = .done := by
  obtain ⟨r, hr⟩ := get_vpa_success_of_ne_apiError env.vpa hv
  simp only [recommend_resources, hs, hr]
  by_cases he : r.isEmpty = true
  · simp [he]
  · simp only [he, Bool.false_eq_true, if_false]
    cases hb : (tryBody spec env r env.prFound).2 with
    | error a =>
      refine ⟨⟨processingErrorStatus r, ?_⟩, by simp [hb]⟩
      simp only [hb]
      exact List.getLast?_concat _
    | ok sd =>
      refine ⟨⟨sd, ?_⟩, by simp [hb]⟩
      simp only [hb]
      exact List.getLast?_concat _

/-- C1 amended witness. -/
theorem recommend_resources_status_write_after_fetch_holds :
    (∃ sd, (recommend_resources sampleSpec okEnv).1.getLast? =
      some (.updateStatus sd)) ∧
    (recommend_resources sampleSpec okEnv).2 = .done :=
  recommend_resources_status_write_after_fetch sampleSpec okEnv "tok" rfl
    (by decide)

theorem statusWrites_append (t1 t2 : List Effect) :
    statusWrites (t1 ++ t2) = statusWrites t1 ++ statusWrites t2 := by
  simp [statusWrites, List.filterMap_append]

theorem tryBody_found_no_createPR (spec : CrSpec) (env : Env)
    (r : Resources) (pd : PrData) :
    ((tryBody spec env r (some pd)).1.all fun e => !e.isCreatePR) = true := by
  obtain ⟨sec, vpa, prF, rd, co, be, ccb, cko, ao, sc, cmo, po, cca, cpr⟩ := env
  cases co <;> cases be <;> cases cko <;> cases ao <;> cases sc <;>
    cases cmo <;> cases po <;>
    simp [tryBody, git_commit_and_push, Effect.isCreatePR]

theorem tryBody_found_success_result (spec : CrSpec) (env : Env)
    (r : Resources) (pd : PrData) (hc : env.cloneOk = true)
    (hk : env.checkoutOk = true) (ha : env.addOk = true)
    (hg : env.statusClean = true ∨ (env.commitOk = true ∧ env.pushOk = true)) :
    (tryBody spec env r (some pd)).2 =
      .ok (successStatus r
        (create_patch_file env.repoDir spec.gitPath spec.targetResource r).1
        spec.targetResource
        ⟨pd.url, pd.number, pd.created_at, env.commitCountAfter⟩) ∧
    statusWrites (tryBody spec env r (some pd)).1 = [] := by
  rcases hg with hg | ⟨hg1, hg2⟩
  · cases hbe : env.branchExists <;>
      simp [tryBody, git_commit_and_push, hc, hk, ha, hg, hbe, statusWrites]
  · cases hbe : env.branchExists <;> cases hsc : env.statusClean <;>
      simp [tryBody, git_commit_and_push, hc, hk, ha, hg1, hg2, hbe, hsc,
        statusWrites]

/-- C3 counterexample: a cycle with a non-empty recommendation in which the
lookup finds an open pull request but the clone then fails writes only the
processing-error status, which carries no pull-request reference at all —
the found request's number and URL are not in the resulting status, contra
the claim; no duplicate pull request is created either. -/
theorem recommend_resources_found_pr_clone_fail_status :
    ((recommend_resources sampleSpec prFoundCloneFailEnv).1.all
      fun e => !e.isCreatePR) = true ∧
    statusWrites (recommend_resources sampleSpec prFoundCloneFailEnv).1 =
      [processingErrorStatus sampleResources] ∧
    (processingErrorStatus sampleResources).pullRequest = none :=
  ⟨rfl, rfl, rfl⟩

/-- C3 amended: for every cycle with a non-empty recommendation in which
the lookup finds an open pull request, no pull request is created on any
path; and when the materialization steps succeed (clone, checkout, the git
add/status commands, and either a clean tree or a successful commit and
push), the single written status carries exactly the found request's number
and URL.  A new pull request is created only when the lookup reports none
exists. -/
theorem recommend_resources_found_pr_no_duplicate (spec : CrSpec) (env : Env)
    (token : String) (r : Resources) (pd : PrData)
    (hs : env.secret = .ok token)
    (hv : get_vpa_recommendation env.vpa = .success r)
    (hne : r.isEmpty = false) (hpr : env.prFound = some pd) :
    ((recommend_resources spec env).1.all fun e => !e.isCreatePR) = true ∧
    (env.cloneOk = true → env.checkoutOk = true → env.addOk = true →
      env.statusClean = true ∨ (env.commitOk = true ∧ env.pushOk = true) →
      statusWrites (recommend_resources spec env).1 =
        [successStatus r
          (create_patch_file env.repoDir spec.gitPath spec.targetResource r).1
          spec.targetResource
          ⟨pd.url, pd.number, pd.created_at, env.commitCountAfter⟩]) := by
  have hnc := tryBody_found_no_createPR spec env r pd
  constructor
  · simp only [recommend_resources, hs, hv, hne, Bool.false_eq_true,
      if_false, hpr]
    cases hb : (tryBody spec env r (some pd)).2 <;>
      simp only [hb] <;>
      simp_all [List.all_append, Effect.isCreatePR]
  · intro hc hk ha hg
    obtain ⟨h2, h1⟩ := tryBody_found_success_result spec env r pd hc hk ha hg
    simp only [recommend_resources, hs, hv, hne, Bool.false_eq_true,
      if_false, hpr, h2]
    rw [statusWrites_append, statusWrites_append, h1]
    rfl

/-- C3 amended witness. -/
theorem recommend_resources_found_pr_no_duplicate_holds :
    ((recommend_resources sampleSpec prFoundOkEnv).1.all
      fun e => !e.isCreatePR) = true ∧
    statusWrites (recommend_resources sampleSpec prFoundOkEnv).1 =
      [successStatus sampleResources
        (create_patch_file "/tmp/repo" "infra" sampleTarget sampleResources).1
        sampleTarget
        ⟨samplePr.url, samplePr.number, samplePr.created_at, 3⟩] := by
  have h := recommend_resources_found_pr_no_duplicate sampleSpec prFoundOkEnv
    "tok" sampleResources samplePr rfl rfl rfl rfl
  exact ⟨h.1, h.2 rfl rfl rfl (Or.inr ⟨rfl, rfl⟩)⟩

/-- C4: a cycle whose fetched recommendation is empty performs only the
secret read, the fetch and a status write — no pull-request lookup, no git
operation, no pull-request operation — and the written status carries a
condition with status False and reason NoRecommendations. -/
theorem recommend_resources_empty_short_circuit (spec : CrSpec) (env : Env)
    (token : String) (r : Resources) (hs : env.secret = .ok token)
    (hv : get_vpa_recommendation env.vpa = .success r)
    (he : r.isEmpty = true) :
    (recommend_resources spec env).1 =
      [.readSecret, .fetchVpa, .updateStatus noRecommendationStatus] ∧
    noRecommendationStatus.condStatus = "False" ∧
    noRecommendationStatus.condReason = "NoRecommendations" := by
  refine ⟨?_, rfl, rfl⟩
  simp [recommend_resources, hs, hv, he]

/-- C4 witness. -/
theorem recommend_resources_empty_short_circuit_holds :
    (recommend_resources sampleSpec emptyVpaEnv).1 =
      [.readSecret, .fetchVpa, .updateStatus noRecommendationStatus] ∧
    noRecommendationStatus.condStatus = "False" ∧
    noRecommendationStatus.condReason = "NoRecommendations" :=
  recommend_resources_empty_short_circuit sampleSpec emptyVpaEnv "tok"
    emptyResources rfl rfl rfl

/-- C10: create_patch_file never emits a limits operation for cpu, and
emits a limits operation for memory exactly when memory is present in the
recommendation, with value the explicit memoryLimit when supplied and the
memory request value otherwise. -/
theorem create_patch_file_limits_policy (repo_dir git_path : String)
    (target : TargetResource) (r : Resources) :
    ((create_patch_file repo_dir git_path target r).2.filter fun p =>
        p.path == containerBase (target.containerIndex.getD 0) ++ "limits/cpu") = [] ∧
    ((create_patch_file repo_dir git_path target r).2.filter fun p =>
        p.path == containerBase (target.containerIndex.getD 0) ++ "limits/memory") =
      (match r.memory with
       | some m =>
         [⟨"add", containerBase (target.containerIndex.getD 0) ++ "limits/memory",
            r.memoryLimit.getD m⟩]
       | none => []) := by
  obtain ⟨c, m, ml⟩ := r
  cases c <;> cases m <;>
    simp [create_patch_file,
      containerBase_beq_false (target.containerIndex.getD 0)
        "requests/cpu" "limits/cpu" (by decide),
      containerBase_beq_false (target.containerIndex.getD 0)
        "requests/memory" "limits/cpu" (by decide),
      containerBase_beq_false (target.containerIndex.getD 0)
        "limits/memory" "limits/cpu" (by decide),
      containerBase_beq_false (target.containerIndex.getD 0)
        "requests/cpu" "limits/memory" (by decide),
      containerBase_beq_false (target.containerIndex.getD 0)
        "requests/memory" "limits/memory" (by decide)]

/-- C9 witness. -/
theorem create_patch_file_dimension_ops_holds :
    cpuDimOps 0
        (create_patch_file "/tmp/repo" "infra" sampleTarget sampleResources).2 =
      [⟨"add", containerBase 0 ++ "requests/cpu", "250m"⟩] ∧
    memoryDimOps 0
        (create_patch_file "/tmp/repo" "infra" sampleTarget sampleResources).2 =
      [⟨"add", containerBase 0 ++ "requests/memory", "512Mi"⟩,
       ⟨"add", containerBase 0 ++ "limits/memory", "512Mi"⟩] :=
  create_patch_file_dimension_ops "/tmp/repo" "infra" sampleTarget
    sampleResources

/-- C10 witness. -/
theorem create_patch_file_limits_policy_holds :
    ((create_patch_file "/tmp/repo" "infra" sampleTarget sampleResources).2.filter
      fun p => p.path == containerBase 0 ++ "limits/cpu") = [] ∧
    ((create_patch_file "/tmp/repo" "infra" sampleTarget sampleResources).2.filter
      fun p => p.path == containerBase 0 ++ "limits/memory") =
      [⟨"add", containerBase 0 ++ "limits/memory", "512Mi"⟩] :=
  create_patch_file_limits_policy "/tmp/repo" "infra" sampleTarget
    sampleResources
